import Mathlib

/-!
Shallow embedding of the rye-proc process lifecycle controller
(src/ryeos/rye/.ai/tools/rye/core/runtimes/rust/rye-proc/src/main.rs) and of
the lillux-watch status-watch utility (src/lillux/watch/src/main.rs).

OS syscall outcomes are supplied by explicit world records, one field per
call site, so that every control path of the source is a path of the Lean
function. Each operation additionally returns the list of OS-level events it
performs (signals sent, sleeps, handle opens, waits, handle closes), so that
claims about which calls are or are not made can be stated and settled.
-/

namespace RyeProc

/-- Relevant error codes of a failing OS call: the target process does not
exist, permission denied, or anything else. The Rust code embeds the reported
error into a formatted string; only its presence matters to control flow. -/
inductive Errno
  | esrch
  | eperm
  | eother
deriving DecidableEq, Repr

/-- OS-level events performed by an operation, in order. `checkAlive` is a
unix kill(pid, 0) liveness probe; `sigterm` and `sigkill` are unix signal
sends; `sleepMs` is thread::sleep; `openProcess` (with its success flag),
`waitSingle` (WaitForSingleObject with its timeout), `closeHandle` and
`terminateProcess` are the Windows handle primitives. -/
inductive Event
  | checkAlive
  | sigterm
  | sigkill
  | sleepMs (ms : Nat)
  | openProcess (ok : Bool)
  | waitSingle (timeoutMs : Nat)
  | closeHandle
  | terminateProcess
deriving DecidableEq, Repr

/-- The three success outcomes of kill_process, as reported in the
method field: already_dead, terminated, killed. -/
inductive KillOutcome
  | already_dead
  | terminated
  | killed
deriving DecidableEq, Repr

/-- The error values kill_process can return (the Rust code returns formatted
strings; the constructor records which call failed and with which code). -/
inductive KillError
  | sigtermFailed (e : Errno)
  | sigkillFailed (e : Errno)
  | terminateProcessFailed
deriving DecidableEq, Repr

/-- Result of kill_process: Rust Result of a static method string or an
error string. -/
inductive KillResult
  | ok (o : KillOutcome)
  | err (e : KillError)
deriving DecidableEq, Repr

/-- Saturation bound of a Rust `as u32` cast. -/
def U32_MAX : Nat := 2 ^ 32 - 1

/-- Number of grace-wait poll iterations: `(grace / 0.1).ceil() as u32` of
the unix kill_process, with the saturating semantics of `as u32` (negative
values clamp to 0, large values clamp to u32::MAX). -/
def numPolls (grace : ℚ) : Nat := min (⌈grace / (1 / 10)⌉).toNat U32_MAX

/-- Outcomes of the OS calls the unix kill_process performs, one field per
call site: the kill(pid, 0) pre-check, the SIGTERM send, the kill(pid, 0)
probe of each grace-wait poll iteration, the SIGKILL send, and the
kill(pid, 0) recheck after a failed SIGKILL. `none` means the call returned
0 (success: for kill(pid, 0) that means the process is alive). -/
structure UnixWorld where
  preCheck : Option Errno
  sigterm : Option Errno
  pollCheck : Nat → Option Errno
  sigkill : Option Errno
  recheck : Option Errno

/-- The grace-wait loop of the unix kill_process: up to `n` iterations, each
sleeping 100 ms and then probing with kill(pid, 0); returns whether the
process was observed dead, together with the events performed. -/
def pollLoop (poll : Nat → Option Errno) : Nat → Nat → Bool × List Event
  | 0, _ => (false, [])
  | n + 1, i =>
    if (poll i).isSome then (true, [.sleepMs 100, .checkAlive])
    else
      let r := pollLoop poll n (i + 1)
      (r.1, Event.sleepMs 100 :: Event.checkAlive :: r.2)

/-- The unix kill_process: pre-check with kill(pid, 0) (nonzero return means
already dead), SIGTERM (any failure is an error), the 100 ms poll loop
(death observed returns terminated), then SIGKILL (success returns killed; on
failure a kill(pid, 0) recheck distinguishes a benign race, returning
terminated, from a real error). -/
def kill_process (w : UnixWorld) (grace : ℚ) : KillResult × List Event :=
  match w.preCheck with
  | some _ => (.ok .already_dead, [.checkAlive])
  | none =>
    match w.sigterm with
    | some e => (.err (.sigtermFailed e), [.checkAlive, .sigterm])
    | none =>
      let r := pollLoop w.pollCheck (numPolls grace) 0
      let tr : List Event := .checkAlive :: .sigterm :: r.2
      if r.1 then (.ok .terminated, tr)
      else
        match w.sigkill with
        | none => (.ok .killed, tr ++ [.sigkill])
        | some e =>
          match w.recheck with
          | some _ => (.ok .terminated, tr ++ [.sigkill, .checkAlive])
          | none => (.err (.sigkillFailed e), tr ++ [.sigkill, .checkAlive])

/-- Outcomes of the OS calls the Windows kill_process performs: whether
OpenProcess returns a nonzero handle, the return of the single
WaitForSingleObject call, and whether TerminateProcess succeeds. -/
structure WinKillWorld where
  openOk : Bool
  waitRes : Nat
  terminateOk : Bool
deriving DecidableEq, Repr

/-- Grace timeout in milliseconds of the Windows kill_process:
`(grace * 1000.0) as u32` with saturating cast semantics. -/
def grace_ms (grace : ℚ) : Nat := min (⌊grace * 1000⌋).toNat U32_MAX

/-- The Windows kill_process: OpenProcess (zero handle means already dead),
a single WaitForSingleObject with the whole grace timeout (WAIT_OBJECT_0 = 0
means the process exited: terminated), then TerminateProcess followed by
CloseHandle (success returns killed, any failure is an error). -/
def kill_process_windows (w : WinKillWorld) (grace : ℚ) : KillResult × List Event :=
  if w.openOk = false then (.ok .already_dead, [.openProcess false])
  else
    let g := grace_ms grace
    if w.waitRes = 0 then
      (.ok .terminated, [.openProcess true, .waitSingle g, .closeHandle])
    else if w.terminateOk then
      (.ok .killed, [.openProcess true, .waitSingle g, .terminateProcess, .closeHandle])
    else
      (.err .terminateProcessFailed,
        [.openProcess true, .waitSingle g, .terminateProcess, .closeHandle])

/-- The unix is_alive: a single kill(pid, 0); alive iff it returned 0. -/
def is_alive (r : Option Errno) : Bool := r.isNone

/-- The unix is_alive with its event trace: exactly one liveness syscall. -/
def is_alive_trace (r : Option Errno) : Bool × List Event := (r.isNone, [.checkAlive])

/-- Outcomes of the OS calls the Windows is_alive performs: whether
OpenProcess returns a nonzero handle, and the return of the zero-timeout
WaitForSingleObject poll. -/
structure WinProbeWorld where
  openOk : Bool
  waitRes : Nat
deriving DecidableEq, Repr

/-- The Windows is_alive: OpenProcess (failure is conservatively reported as
not alive), a WaitForSingleObject with timeout 0 (0 = WAIT_OBJECT_0 means
exited), CloseHandle, then alive iff the wait result was nonzero. -/
def is_alive_windows (w : WinProbeWorld) : Bool × List Event :=
  if w.openOk = false then (false, [.openProcess false])
  else (decide (w.waitRes ≠ 0), [.openProcess true, .waitSingle 0, .closeHandle])

/-- Number of successful OpenProcess calls in an event trace. -/
def opensOk (tr : List Event) : Nat := tr.countP fun e => decide (e = Event.openProcess true)

/-- Number of CloseHandle calls in an event trace. -/
def closes (tr : List Event) : Nat := tr.countP fun e => decide (e = Event.closeHandle)

/-- The error values spawn_detached can return (the Rust code returns
formatted strings; the constructor records which step failed). -/
inductive SpawnError
  | logOpenFailed
  | logCloneFailed
  | launchFailed
deriving DecidableEq, Repr

/-- Outcomes of the OS calls spawn_detached performs: the log file open, the
descriptor clone, the spawn itself, and the pid of the launched child. -/
structure SpawnWorld where
  logOpen : Option Errno
  logClone : Option Errno
  launch : Option Errno
  childPid : Nat
deriving DecidableEq, Repr

/-- The str::split_once search on a character list: splits at the first
occurrence of `c`, returning the parts before and after it, or nothing when
`c` does not occur. -/
def split_onceAux (c : Char) : List Char → Option (List Char × List Char)
  | [] => none
  | x :: xs =>
    if x = c then some ([], xs)
    else
      match split_onceAux c xs with
      | some (a, b) => some (x :: a, b)
      | none => none

/-- Rust str::split_once on strings. -/
def split_once (s : String) (c : Char) : Option (String × String) :=
  match split_onceAux c s.data with
  | some (a, b) => some (String.mk a, String.mk b)
  | none => none

/-- The sequence of command.env(key, value) calls made by spawn_detached for
a list of --env entries: each entry that splits at its first = contributes
its key and value; entries with no = contribute nothing. -/
def envCalls (envs : List String) : List (String × String) :=
  envs.filterMap fun e => split_once e '='

/-- The child process description spawn_detached builds before launching:
program, literal argument vector, environment override calls in order, and
the optional log path (shared by stdout and stderr; both are discarded when
it is absent). -/
structure ChildConfig where
  program : String
  args : List String
  envOverrides : List (String × String)
  logPath : Option String
deriving DecidableEq, Repr

/-- Result of spawn_detached: the pid of the launched child together with
the configuration it was launched with, or an error. -/
inductive SpawnResult
  | ok (pid : Nat) (cfg : ChildConfig)
  | err (e : SpawnError)
deriving DecidableEq, Repr

/-- The spawn_detached of either platform: build the command from program
and argument vector, apply the well-formed environment overrides, when a log
path is given open it (truncating) and clone the descriptor for stderr
(either step failing is an error), then launch; on success return the child
pid. -/
def spawn_detached (w : SpawnWorld) (cmd : String) (args : List String)
    (log : Option String) (envs : List String) : SpawnResult :=
  let cfg : ChildConfig := ⟨cmd, args, envCalls envs, log⟩
  match log with
  | some _ =>
    if (w.logOpen).isSome then .err .logOpenFailed
    else if (w.logClone).isSome then .err .logCloneFailed
    else if (w.launch).isSome then .err .launchFailed
    else .ok w.childPid cfg
  | none =>
    if (w.launch).isSome then .err .launchFailed
    else .ok w.childPid cfg

/-- The parsed CLI subcommand dispatched by main. -/
inductive Cmd
  | spawn (cmd : String) (args : List String) (log : Option String) (envs : List String)
  | kill (pid : Nat) (grace : ℚ)
  | status (pid : Nat)

/-- The single-line structured record an invocation prints: one of the five
JSON shapes produced by do_spawn, do_kill and do_status. -/
inductive OutputRecord
  | spawnOk (pid : Nat)
  | spawnErr (e : SpawnError)
  | killOk (pid : Nat) (method : KillOutcome)
  | killErr (pid : Nat) (e : KillError)
  | statusRec (pid : Nat) (alive : Bool)
deriving DecidableEq, Repr

/-- Outcomes of all OS calls a single invocation may perform. -/
structure World where
  spawnW : SpawnWorld
  killW : UnixWorld
  probeR : Option Errno

/-- do_spawn: convert the spawn result into its structured record. -/
def do_spawn (w : SpawnWorld) (cmd : String) (args : List String)
    (log : Option String) (envs : List String) : OutputRecord :=
  match spawn_detached w cmd args log envs with
  | .ok pid _ => .spawnOk pid
  | .err e => .spawnErr e

/-- do_kill: convert the kill result into its structured record, embedding
failure in the record. -/
def do_kill (w : UnixWorld) (pid : Nat) (grace : ℚ) : OutputRecord :=
  match (kill_process w grace).1 with
  | .ok m => .killOk pid m
  | .err e => .killErr pid e

/-- do_status: always a pid and alive pair. -/
def do_status (r : Option Errno) (pid : Nat) : OutputRecord :=
  .statusRec pid (is_alive r)

/-- The body of main: dispatch on the subcommand and print exactly one
record (modelled as the list of printed records). -/
def main_output (w : World) : Cmd → List OutputRecord
  | .spawn c a l e => [do_spawn w.spawnW c a l e]
  | .kill pid g => [do_kill w.killW pid g]
  | .status pid => [do_status w.probeR pid]

/-- Whether a record is of the shape the given subcommand specifies: spawn
yields a success or error spawn record, kill yields a success or error kill
record echoing the pid, status yields the pid and alive record. -/
def recordMatches : Cmd → OutputRecord → Bool
  | .spawn _ _ _ _, .spawnOk _ => true
  | .spawn _ _ _ _, .spawnErr _ => true
  | .kill pid _, .killOk p _ => p == pid
  | .kill pid _, .killErr p _ => p == pid
  | .status pid, .statusRec p _ => p == pid
  | _, _ => false

end RyeProc

namespace LilluxWatch

/-- The fixed closed set of terminal status values of lillux-watch. -/
def TERMINAL : List String := ["completed", "error", "cancelled", "continued"]

/-- TERMINAL.contains of the source. -/
def isTerminal (s : String) : Bool := TERMINAL.contains s

/-- One receive on the notification channel: a coalesced filesystem
notification followed by a status re-query (the query returns the status
string when the row exists and is readable), or a channel disconnect
followed by one last query. Exhaustion of the list models the deadline
elapsing before the next event. -/
inductive RecvEv
  | notify (q : Option String)
  | disconnected (q : Option String)
deriving DecidableEq, Repr

/-- Inputs of one lillux-watch run: the immediate query result, whether the
watcher could be created and the directory watch installed, and the channel
events received before the deadline. -/
structure WatchWorld where
  initQ : Option String
  watcherInitOk : Bool
  watchDirOk : Bool
  events : List RecvEv

/-- The event loop of lillux-watch main: on each coalesced notification
re-query and emit the status if terminal; on disconnect do one last query
then emit the status if terminal, timeout otherwise; when the deadline
elapses with no further event, emit timeout. Returns the emitted status
string. -/
def watchLoop : List RecvEv → String
  | [] => "timeout"
  | .notify q :: rest =>
    match q with
    | some s => if isTerminal s then s else watchLoop rest
    | none => watchLoop rest
  | .disconnected q :: _ =>
    match q with
    | some s => if isTerminal s then s else "timeout"
    | none => "timeout"

/-- The part of lillux-watch main after the immediate check: a watcher
creation or directory watch failure emits timeout, otherwise the event loop
runs. -/
def watchBody (w : WatchWorld) : String :=
  if w.watcherInitOk = false then "timeout"
  else if w.watchDirOk = false then "timeout"
  else watchLoop w.events

/-- lillux-watch main: immediate query first (emitting a terminal status at
once), then the watcher and event loop; every emit pairs the status with the
thread id. Returns the emitted record as a status and thread id pair. -/
def watch_main (threadId : String) (w : WatchWorld) : String × String :=
  match w.initQ with
  | some s => if isTerminal s then (s, threadId) else (watchBody w, threadId)
  | none => (watchBody w, threadId)

/-- Modelled from the spec side for the refinement comparison of C8: the
sequence of query results the run observes, namely the immediate query
followed, when the watcher was installed, by one query per received
notification (a disconnect contributes its final query and ends the
sequence). -/
def loopQueries : List RecvEv → List (Option String)
  | [] => []
  | .notify q :: rest => q :: loopQueries rest
  | .disconnected q :: _ => [q]

/-- Modelled from the spec side for the refinement comparison of C8: all
query results observed before the deadline. -/
def observations (w : WatchWorld) : List (Option String) :=
  w.initQ :: (if w.watcherInitOk && w.watchDirOk then loopQueries w.events else [])

/-- Modelled from the spec side for the refinement comparison of C8: the
first terminal status among the observed query results, or timeout when
none is terminal. -/
def specOutcome (w : WatchWorld) : String :=
  (((observations w).filterMap id).find? isTerminal).getD "timeout"

end LilluxWatch

section Lemmas
open RyeProc LilluxWatch

/-- The grace of 0 yields zero poll iterations. -/
theorem numPolls_zero : numPolls 0 = 0 := by norm_num [numPolls]

/-- A grace of 3 seconds yields 30 poll iterations. -/
theorem numPolls_three : numPolls 3 = 30 := by norm_num [numPolls, U32_MAX]; rfl

/-- A grace of 3 seconds is a 3000 ms wait timeout on Windows. -/
theorem grace_ms_three : grace_ms 3 = 3000 := by norm_num [grace_ms, U32_MAX]; rfl

/-- When every poll observes the process alive, the grace-wait loop never
reports death. -/
theorem pollLoop_fst_false (poll : Nat → Option Errno) (h : ∀ j, poll j = none) :
    ∀ n i, (pollLoop poll n i).1 = false := by
  intro n
  induction n with
  | zero => intro i; rfl
  | succ n ih =>
    intro i
    simp only [pollLoop, h i, Option.isSome_none, Bool.false_eq_true, if_false]
    exact ih (i + 1)

/-- Every sleep event of the grace-wait loop is a 100 ms sleep. -/
theorem pollLoop_sleep_100 (poll : Nat → Option Errno) :
    ∀ n i ms, Event.sleepMs ms ∈ (pollLoop poll n i).2 → ms = 100 := by
  intro n
  induction n with
  | zero => intro i ms hm; simp [pollLoop] at hm
  | succ n ih =>
    intro i ms hm
    by_cases hp : (poll i).isSome
    · simp [pollLoop, hp] at hm
      exact hm
    · simp [pollLoop, hp] at hm
      rcases hm with h1 | h2
      · exact h1
      · exact ih (i + 1) ms h2

/-- The grace-wait loop performs no Windows wait call. -/
theorem pollLoop_no_wait (poll : Nat → Option Errno) :
    ∀ n i ms, Event.waitSingle ms ∉ (pollLoop poll n i).2 := by
  intro n
  induction n with
  | zero => intro i ms hm; simp [pollLoop] at hm
  | succ n ih =>
    intro i ms hm
    by_cases hp : (poll i).isSome
    · simp [pollLoop, hp] at hm
    · simp [pollLoop, hp] at hm
      exact ih (i + 1) ms hm

/-- Every sleep event of the unix kill_process is a 100 ms sleep. -/
theorem kill_process_sleep_100 (w : UnixWorld) (grace : ℚ) (ms : Nat)
    (hm : Event.sleepMs ms ∈ (kill_process w grace).2) : ms = 100 := by
  unfold kill_process at hm
  rcases hpre : w.preCheck with _ | e <;> simp [hpre] at hm
  rcases hst : w.sigterm with _ | e <;> simp [hst] at hm
  · rcases hr : (pollLoop w.pollCheck (numPolls grace) 0).1 with _ | _ <;>
      simp [hr] at hm
    · rcases hsk : w.sigkill with _ | e <;> simp [hsk] at hm
      · exact pollLoop_sleep_100 w.pollCheck _ 0 ms hm
      · rcases hrc : w.recheck with _ | e2 <;> simp [hrc] at hm <;>
          exact pollLoop_sleep_100 w.pollCheck _ 0 ms hm
    · exact pollLoop_sleep_100 w.pollCheck _ 0 ms hm

/-- The unix kill_process performs no Windows wait call. -/
theorem kill_process_no_wait (w : UnixWorld) (grace : ℚ) (ms : Nat) :
    Event.waitSingle ms ∉ (kill_process w grace).2 := by
  intro hm
  unfold kill_process at hm
  rcases hpre : w.preCheck with _ | e <;> simp [hpre] at hm
  rcases hst : w.sigterm with _ | e <;> simp [hst] at hm
  · rcases hr : (pollLoop w.pollCheck (numPolls grace) 0).1 with _ | _ <;>
      simp [hr] at hm
    · rcases hsk : w.sigkill with _ | e <;> simp [hsk] at hm
      · exact pollLoop_no_wait w.pollCheck _ 0 ms hm
      · rcases hrc : w.recheck with _ | e2 <;> simp [hrc] at hm <;>
          exact pollLoop_no_wait w.pollCheck _ 0 ms hm
    · exact pollLoop_no_wait w.pollCheck _ 0 ms hm

/-- The event loop emits the first terminal status among the query results
it observes, and timeout when none is terminal. -/
theorem watchLoop_eq_spec (evs : List RecvEv) :
    watchLoop evs = (((loopQueries evs).filterMap id).find? isTerminal).getD "timeout" := by
  induction evs with
  | nil => rfl
  | cons ev rest ih =>
    cases ev with
    | notify q =>
      cases q with
      | none => simpa [watchLoop, loopQueries] using ih
      | some s =>
        by_cases ht : isTerminal s = true
        · simp [watchLoop, loopQueries, ht, List.find?]
        · simp only [Bool.not_eq_true] at ht
          simp [watchLoop, loopQueries, ht, List.find?, ih]
    | disconnected q =>
      cases q with
      | none => simp [watchLoop, loopQueries]
      | some s =>
        by_cases ht : isTerminal s = true
        · simp [watchLoop, loopQueries, ht, List.find?]
        · simp only [Bool.not_eq_true] at ht
          simp [watchLoop, loopQueries, ht, List.find?]

end Lemmas

section Claims
open RyeProc LilluxWatch

/-- C1: for every grace duration at least 0, when the liveness pre-check of
kill observes the target as not running (nonzero kill(pid, 0) on unix,
failed OpenProcess on Windows), kill returns the success outcome
already_dead and issues no graceful or forced termination call; a second
kill on a pid a prior kill terminated therefore returns already_dead, not
an error. -/
theorem C1_kill_on_dead_pid_already_dead (w : UnixWorld) (ww : WinKillWorld) (grace : ℚ)
    (_hg : 0 ≤ grace) (hu : (w.preCheck).isSome = true) (hw : ww.openOk = false) :
    (kill_process w grace).1 = .ok .already_dead ∧
    Event.sigterm ∉ (kill_process w grace).2 ∧
    Event.sigkill ∉ (kill_process w grace).2 ∧
    (kill_process_windows ww grace).1 = .ok .already_dead ∧
    Event.terminateProcess ∉ (kill_process_windows ww grace).2 := by
  rcases Option.isSome_iff_exists.mp hu with ⟨e, he⟩
  refine ⟨?_, ?_, ?_, ?_, ?_⟩ <;>
    simp [kill_process, kill_process_windows, he, hw]

/-- C1 witness at pid-dead worlds with grace 3. -/
theorem C1_witness :
    (kill_process ⟨some .esrch, none, fun _ => none, none, none⟩ 3).1
        = .ok .already_dead ∧
    Event.sigterm ∉ (kill_process ⟨some .esrch, none, fun _ => none, none, none⟩ 3).2 ∧
    Event.sigkill ∉ (kill_process ⟨some .esrch, none, fun _ => none, none, none⟩ 3).2 ∧
    (kill_process_windows ⟨false, 258, true⟩ 3).1 = .ok .already_dead ∧
    Event.terminateProcess ∉ (kill_process_windows ⟨false, 258, true⟩ 3).2 :=
  C1_kill_on_dead_pid_already_dead
    ⟨some .esrch, none, fun _ => none, none, none⟩ ⟨false, 258, true⟩ 3
    (by norm_num) rfl rfl

/-- C2 counterexample: the pre-check observes the process alive, the SIGTERM
send then fails because the process vanished (ESRCH), and kill returns a
KillError rather than the already_dead success the claim requires. -/
theorem C2_counterexample :
    (kill_process ⟨none, some .esrch, fun _ => none, none, none⟩ 3).1
        = .err (.sigtermFailed .esrch) ∧
    (kill_process ⟨none, some .esrch, fun _ => none, none, none⟩ 3).1
        ≠ .ok .already_dead := by
  refine ⟨rfl, ?_⟩
  intro h
  exact KillResult.noConfusion h

/-- C2 amended: in the unix kill_process, a failure of the graceful SIGTERM
send yields a KillError whatever its reason, including when the target
process vanished; no failure of the graceful request produces a success
outcome. -/
theorem C2_sigterm_failure_is_kill_error (w : UnixWorld) (grace : ℚ) (e : Errno)
    (h1 : w.preCheck = none) (h2 : w.sigterm = some e) :
    (kill_process w grace).1 = .err (.sigtermFailed e) ∧
    ∀ o, (kill_process w grace).1 ≠ .ok o := by
  refine ⟨by simp [kill_process, h1, h2], ?_⟩
  intro o h
  simp [kill_process, h1, h2] at h

/-- C2 amended witness: SIGTERM failing with ESRCH at grace 3. -/
theorem C2_witness :
    (kill_process ⟨none, some .esrch, fun _ => none, none, none⟩ 3).1
        = .err (.sigtermFailed .esrch) :=
  (C2_sigterm_failure_is_kill_error
    ⟨none, some .esrch, fun _ => none, none, none⟩ 3 .esrch rfl rfl).1

/-- C3: in the unix kill_process, after a grace window in which every poll
observed the process alive, a SIGKILL that fails because the process no
longer exists (ESRCH at the force kill and at the recheck) is reported as
the success outcome terminated; a SIGKILL that succeeds returns killed; a
SIGKILL failure while the process is still alive at the recheck returns a
KillError. -/
theorem C3_force_kill_race_not_error (w : UnixWorld) (grace : ℚ)
    (h1 : w.preCheck = none) (h2 : w.sigterm = none)
    (h3 : ∀ i, w.pollCheck i = none) :
    (w.sigkill = some .esrch → w.recheck = some .esrch →
      (kill_process w grace).1 = .ok .terminated) ∧
    (w.sigkill = none → (kill_process w grace).1 = .ok .killed) ∧
    (∀ e, w.sigkill = some e → w.recheck = none →
      (kill_process w grace).1 = .err (.sigkillFailed e)) := by
  have hp : (pollLoop w.pollCheck (numPolls grace) 0).1 = false :=
    pollLoop_fst_false w.pollCheck h3 (numPolls grace) 0
  refine ⟨?_, ?_, ?_⟩
  · intro hk hr
    simp [kill_process, h1, h2, hp, hk, hr]
  · intro hk
    simp [kill_process, h1, h2, hp, hk]
  · intro e hk hr
    simp [kill_process, h1, h2, hp, hk, hr]

/-- C3 witness: the three force-kill outcomes at concrete worlds, grace 0. -/
theorem C3_witness :
    (kill_process ⟨none, none, fun _ => none, some .esrch, some .esrch⟩ 0).1
        = .ok .terminated ∧
    (kill_process ⟨none, none, fun _ => none, none, none⟩ 0).1 = .ok .killed ∧
    (kill_process ⟨none, none, fun _ => none, some .eperm, none⟩ 0).1
        = .err (.sigkillFailed .eperm) :=
  ⟨(C3_force_kill_race_not_error
      ⟨none, none, fun _ => none, some .esrch, some .esrch⟩ 0
      rfl rfl (fun _ => rfl)).1 rfl rfl,
   (C3_force_kill_race_not_error
      ⟨none, none, fun _ => none, none, none⟩ 0
      rfl rfl (fun _ => rfl)).2.1 rfl,
   (C3_force_kill_race_not_error
      ⟨none, none, fun _ => none, some .eperm, none⟩ 0
      rfl rfl (fun _ => rfl)).2.2 .eperm rfl rfl⟩

/-- C4 counterexample: on the handle-based platform the grace wait of
kill_process is one single blocking WaitForSingleObject with the whole
grace duration (3000 ms for grace 3) as its timeout, and the trace contains
no 100 ms poll sleeps at all, contradicting the claim that every platform
polls at a fixed 100 ms interval and never uses a single blocking wait. -/
theorem C4_counterexample :
    kill_process_windows ⟨true, 258, true⟩ 3
      = (.ok .killed,
         [.openProcess true, .waitSingle 3000, .terminateProcess, .closeHandle]) ∧
    Event.sleepMs 100 ∉ (kill_process_windows ⟨true, 258, true⟩ 3).2 ∧
    Event.waitSingle 3000 ∈ (kill_process_windows ⟨true, 258, true⟩ 3).2 := by
  refine ⟨?_, ?_, ?_⟩ <;> simp [kill_process_windows, grace_ms_three]

/-- C4 amended: on the signal-based platform the grace wait of kill_process
polls liveness at a fixed, non-configurable 100 ms interval (every sleep in
its trace is 100 ms and it performs no blocking wait call), and death
observed by a poll yields terminated; on the handle-based platform the
grace wait is instead a single blocking WaitForSingleObject whose timeout
is the whole grace duration, with no poll sleeps, and death observed by
that wait yields terminated. -/
theorem C4_grace_wait_shape (w : UnixWorld) (ww : WinKillWorld) (grace : ℚ)
    (h1 : w.preCheck = none) (h2 : w.sigterm = none) (hw : ww.openOk = true) :
    (∀ ms, Event.sleepMs ms ∈ (kill_process w grace).2 → ms = 100) ∧
    (∀ ms, Event.waitSingle ms ∉ (kill_process w grace).2) ∧
    ((pollLoop w.pollCheck (numPolls grace) 0).1 = true →
      (kill_process w grace).1 = .ok .terminated) ∧
    Event.waitSingle (grace_ms grace) ∈ (kill_process_windows ww grace).2 ∧
    (∀ ms, Event.sleepMs ms ∉ (kill_process_windows ww grace).2) ∧
    (ww.waitRes = 0 → (kill_process_windows ww grace).1 = .ok .terminated) := by
  refine ⟨fun ms hm => kill_process_sleep_100 w grace ms hm,
    fun ms => kill_process_no_wait w grace ms, ?_, ?_, ?_, ?_⟩
  · intro hd
    simp [kill_process, h1, h2, hd]
  · by_cases hz : ww.waitRes = 0 <;>
      by_cases ht : ww.terminateOk <;>
      simp [kill_process_windows, hw, hz, ht]
  · intro ms
    by_cases hz : ww.waitRes = 0 <;>
      by_cases ht : ww.terminateOk <;>
      simp [kill_process_windows, hw, hz, ht]
  · intro hz
    simp [kill_process_windows, hw, hz]

/-- C4 amended witness: the single blocking wait on the handle-based
platform and the terminated outcomes on both platforms, at grace 3. -/
theorem C4_witness :
    Event.waitSingle (grace_ms 3) ∈ (kill_process_windows ⟨true, 0, true⟩ 3).2 ∧
    (kill_process_windows ⟨true, 0, true⟩ 3).1 = .ok .terminated ∧
    (kill_process ⟨none, none, fun _ => some .esrch, none, none⟩ 3).1
        = .ok .terminated :=
  ⟨(C4_grace_wait_shape ⟨none, none, fun _ => some .esrch, none, none⟩
      ⟨true, 0, true⟩ 3 rfl rfl rfl).2.2.2.1,
   (C4_grace_wait_shape ⟨none, none, fun _ => some .esrch, none, none⟩
      ⟨true, 0, true⟩ 3 rfl rfl rfl).2.2.2.2.2 rfl,
   (C4_grace_wait_shape ⟨none, none, fun _ => some .esrch, none, none⟩
      ⟨true, 0, true⟩ 3 rfl rfl rfl).2.2.1
     (by rw [numPolls_three]; rfl)⟩

/-- C5: a process alive at the pre-check that does not exit during the
grace window (every poll observes it alive) and for which the signals are
delivered is reported as killed; with grace 0 the loop performs zero polls
and the trace is exactly pre-check, SIGTERM, SIGKILL, with no sleep in
between. -/
theorem C5_no_exit_in_grace_killed (w : UnixWorld) (grace : ℚ)
    (h1 : w.preCheck = none) (h2 : w.sigterm = none)
    (h3 : ∀ i, w.pollCheck i = none) (h4 : w.sigkill = none) :
    (kill_process w grace).1 = .ok .killed ∧
    numPolls 0 = 0 ∧
    (kill_process w 0).2 = [.checkAlive, .sigterm, .sigkill] := by
  have hp : (pollLoop w.pollCheck (numPolls grace) 0).1 = false :=
    pollLoop_fst_false w.pollCheck h3 (numPolls grace) 0
  refine ⟨by simp [kill_process, h1, h2, hp, h4], numPolls_zero, ?_⟩
  simp [kill_process, h1, h2, h4, numPolls_zero, pollLoop]

/-- C5 witness: an always-alive target with grace 0 is killed with zero
polls. -/
theorem C5_witness :
    (kill_process ⟨none, none, fun _ => none, none, none⟩ 0).1 = .ok .killed ∧
    numPolls 0 = 0 ∧
    (kill_process ⟨none, none, fun _ => none, none, none⟩ 0).2
        = [.checkAlive, .sigterm, .sigkill] :=
  C5_no_exit_in_grace_killed ⟨none, none, fun _ => none, none, none⟩ 0
    rfl rfl (fun _ => rfl) rfl

/-- C6: every invocation of Spawn, Kill or Status prints exactly one
structured record, of the success or error shape specified for that
operation (spawn records a pid or an error, kill echoes the pid with a
method or an error, status echoes the pid with the alive flag); operation
failures are embedded in the record, and every path of the dispatch
produces a record. -/
theorem C6_single_structured_record (w : World) (c : Cmd) :
    (main_output w c).length = 1 ∧
    ∀ r ∈ main_output w c, recordMatches c r = true := by
  refine ⟨by cases c <;> rfl, ?_⟩
  intro r hr
  cases c with
  | spawn cmd args log envs =>
    simp only [main_output, List.mem_singleton] at hr
    subst hr
    unfold do_spawn
    cases h : spawn_detached w.spawnW cmd args log envs <;> simp [recordMatches]
  | kill pid grace =>
    simp only [main_output, List.mem_singleton] at hr
    subst hr
    unfold do_kill
    cases h : (kill_process w.killW grace).1 <;> simp [recordMatches]
  | status pid =>
    simp only [main_output, List.mem_singleton] at hr
    subst hr
    simp [do_status, recordMatches]

/-- C6 witness: a concrete status invocation prints one matching record. -/
theorem C6_witness :
    (main_output ⟨⟨none, none, none, 42⟩, ⟨none, none, fun _ => none, none, none⟩,
        some .esrch⟩ (Cmd.status 7)).length = 1 ∧
    recordMatches (Cmd.status 7)
      (do_status (some .esrch) 7) = true :=
  ⟨(C6_single_structured_record
      ⟨⟨none, none, none, 42⟩, ⟨none, none, fun _ => none, none, none⟩,
        some .esrch⟩ (Cmd.status 7)).1,
   (C6_single_structured_record
      ⟨⟨none, none, none, 42⟩, ⟨none, none, fun _ => none, none, none⟩,
        some .esrch⟩ (Cmd.status 7)).2
     (do_status (some .esrch) 7) (List.mem_singleton.mpr rfl)⟩

/-- C7: is_alive is a single non-blocking check: on unix it is exactly one
kill(pid, 0) syscall, on Windows any handle it opens is closed within the
call (close count equals successful open count on every path), its only
wait has timeout 0, and a handle-open failure is reported as not alive. -/
theorem C7_probe_single_nonblocking (r : Option Errno) (w : WinProbeWorld) :
    is_alive_trace r = (is_alive r, [Event.checkAlive]) ∧
    (w.openOk = false → (is_alive_windows w).1 = false) ∧
    closes (is_alive_windows w).2 = opensOk (is_alive_windows w).2 ∧
    (∀ ms, Event.waitSingle ms ∈ (is_alive_windows w).2 → ms = 0) := by
  refine ⟨rfl, ?_, ?_, ?_⟩
  · intro h
    simp [is_alive_windows, h]
  · cases h : w.openOk <;> simp [is_alive_windows, h, closes, opensOk]
  · intro ms hm
    cases h : w.openOk <;> simp [is_alive_windows, h] at hm
    exact hm

/-- C7 witness: a failed handle open probes as not alive with balanced
handle bookkeeping. -/
theorem C7_witness :
    (is_alive_windows ⟨false, 0⟩).1 = false ∧
    closes (is_alive_windows ⟨false, 0⟩).2 = opensOk (is_alive_windows ⟨false, 0⟩).2 ∧
    closes (is_alive_windows ⟨true, 258⟩).2 = opensOk (is_alive_windows ⟨true, 258⟩).2 :=
  ⟨(C7_probe_single_nonblocking (some .esrch) ⟨false, 0⟩).2.1 rfl,
   (C7_probe_single_nonblocking (some .esrch) ⟨false, 0⟩).2.2.1,
   (C7_probe_single_nonblocking none ⟨true, 258⟩).2.2.1⟩

/-- C8: for every thread id and every run of the status-watch utility, the
emitted record pairs the thread id with the first status value in the fixed
terminal set observed among its queries (the immediate check followed by
the re-query after each coalesced notification), and is the timeout record
when no terminal status is observed before the deadline. -/
theorem C8_watch_emits_first_terminal_or_timeout (tid : String) (w : WatchWorld) :
    watch_main tid w = (specOutcome w, tid) := by
  unfold watch_main specOutcome observations watchBody
  cases hq : w.initQ with
  | some s =>
    by_cases ht : isTerminal s = true
    · simp [ht, List.find?]
    · simp only [Bool.not_eq_true] at ht
      cases hwi : w.watcherInitOk <;> cases hwd : w.watchDirOk <;>
        simp [ht, List.find?, watchLoop_eq_spec]
  | none =>
    cases hwi : w.watcherInitOk <;> cases hwd : w.watchDirOk <;>
      simp [List.find?, watchLoop_eq_spec]

/-- C9: on the handle-based platform, every native process handle acquired
by kill_process or is_alive is released exactly once on every exit path:
on every input the number of CloseHandle calls equals the number of
successful OpenProcess calls, and a successful open is matched by exactly
one close. -/
theorem C9_handle_released_exactly_once (w : WinKillWorld) (pw : WinProbeWorld) (grace : ℚ) :
    closes (kill_process_windows w grace).2 = opensOk (kill_process_windows w grace).2 ∧
    closes (is_alive_windows pw).2 = opensOk (is_alive_windows pw).2 ∧
    (w.openOk = true → closes (kill_process_windows w grace).2 = 1) ∧
    (pw.openOk = true → closes (is_alive_windows pw).2 = 1) := by
  refine ⟨?_, ?_, ?_, ?_⟩
  · cases ho : w.openOk <;> by_cases hz : w.waitRes = 0 <;>
      by_cases ht : w.terminateOk <;>
      simp [kill_process_windows, ho, hz, ht, closes, opensOk]
  · cases ho : pw.openOk <;> simp [is_alive_windows, ho, closes, opensOk]
  · intro ho
    by_cases hz : w.waitRes = 0 <;> by_cases ht : w.terminateOk <;>
      simp [kill_process_windows, ho, hz, ht, closes]
  · intro ho
    simp [is_alive_windows, ho, closes]

/-- C9 witness: the error path of a Windows force kill and the alive path
of the Windows probe each close their handle exactly once. -/
theorem C9_witness :
    closes (kill_process_windows ⟨true, 258, false⟩ 3).2 = 1 ∧
    closes (is_alive_windows ⟨true, 258⟩).2 = 1 :=
  ⟨(C9_handle_released_exactly_once ⟨true, 258, false⟩ ⟨true, 258⟩ 3).2.2.1 rfl,
   (C9_handle_released_exactly_once ⟨true, 258, false⟩ ⟨true, 258⟩ 3).2.2.2 rfl⟩

/-- C10: an environment override entry with no = separator is silently
ignored by spawn_detached: it contributes no env call, causes no error, and
the spawn result with it present is identical to the spawn result with it
removed, the remaining well-formed KEY=VALUE overrides still applied. -/
theorem C10_env_entry_without_eq_ignored (w : SpawnWorld) (cmd : String)
    (args : List String) (log : Option String) (xs ys : List String) (e : String)
    (he : '=' ∉ e.data) :
    envCalls (xs ++ e :: ys) = envCalls (xs ++ ys) ∧
    spawn_detached w cmd args log (xs ++ e :: ys)
      = spawn_detached w cmd args log (xs ++ ys) := by
  have h0 : split_once e '=' = none := by
    unfold split_once
    have : ∀ cs : List Char, '=' ∉ cs → split_onceAux '=' cs = none := by
      intro cs
      induction cs with
      | nil => intro _; rfl
      | cons x xt ih =>
        intro hx
        simp only [List.mem_cons, not_or] at hx
        have hxne : ¬(x = '=') := fun h => hx.1 (Eq.symm h)
        simp only [split_onceAux, if_neg hxne, ih hx.2]
    rw [this e.data he]
  have henv : envCalls (xs ++ e :: ys) = envCalls (xs ++ ys) := by
    simp [envCalls, List.filterMap_append, List.filterMap_cons, h0]
  exact ⟨henv, by simp only [spawn_detached, henv]⟩

/-- C10 witness: the malformed entry NOEQ between two well-formed overrides
changes nothing. -/
theorem C10_witness :
    envCalls (["A=1"] ++ "NOEQ" :: ["B=2"]) = envCalls (["A=1"] ++ ["B=2"]) ∧
    spawn_detached ⟨none, none, none, 42⟩ "sh" ["-c"] none (["A=1"] ++ "NOEQ" :: ["B=2"])
      = spawn_detached ⟨none, none, none, 42⟩ "sh" ["-c"] none (["A=1"] ++ ["B=2"]) :=
  C10_env_entry_without_eq_ignored ⟨none, none, none, 42⟩ "sh" ["-c"] none
    ["A=1"] ["B=2"] "NOEQ" (by decide)

end Claims
